import Mathlib

/-!
Verification development for the WACE coordination core (wacelib): a shallow
embedding of the configuration store (`configstore/configstore.go`), the
plugin manager (`pluginmanager`) and the core coordinator (`wacecore.go`),
together with theorems settling the specification's claims about them.

Modelling conventions:
* Go maps keyed by strings are embedded as association lists
  (`List (String × α)`) with insert-or-replace and erase operations; Go's
  zero-value-on-missing-key reads are modelled explicitly at each use site.
* Go `float64` values (weights, thresholds, attack probabilities) are only
  ever stored and copied by this code, never computed with, so they are
  modelled by `Rat`, which keeps equality decidable.
* Channels of `ModelStatus` are modelled by the list of statuses a call sends
  on them; the per-transaction signal channel is modelled by the count of
  pending "done" messages. Concurrency is sequentialized: a dispatch round is
  embedded as its completed execution.
* Plugin binaries are opaque: their process/check functions are parameters.
-/

set_option autoImplicit false

deriving instance DecidableEq for Except

/-- Lookup in an association list embedding a Go `map[string]V`: the value
stored at `key`, if any. -/
def alookup {α : Type} : List (String × α) → String → Option α
  | [], _ => none
  | (k, v) :: rest, key => if k = key then some v else alookup rest key

/-- Insert-or-replace in an association list embedding a Go map store
`m[key] = v`: replaces the binding of `key` in place, or appends it. -/
def ainsert {α : Type} : List (String × α) → String → α → List (String × α)
  | [], key, v => [(key, v)]
  | (k, w) :: rest, key, v =>
    if k = key then (k, v) :: rest else (k, w) :: ainsert rest key v

/-- Erase in an association list embedding a Go map `delete(m, key)`. -/
def aerase {α : Type} : List (String × α) → String → List (String × α)
  | [], _ => []
  | (k, w) :: rest, key => if k = key then rest else (k, w) :: aerase rest key

theorem alookup_ainsert_self {α : Type} (l : List (String × α)) (k : String) (v : α) :
    alookup (ainsert l k v) k = some v := by
  induction l with
  | nil => simp [alookup, ainsert]
  | cons p rest ih =>
    obtain ⟨k', w⟩ := p
    by_cases h : k' = k
    · simp [alookup, ainsert, h]
    · simp [alookup, ainsert, h, ih]

theorem alookup_ainsert_ne {α : Type} (l : List (String × α)) (k k' : String) (v : α)
    (h : k' ≠ k) : alookup (ainsert l k v) k' = alookup l k' := by
  induction l with
  | nil =>
    have hne : ¬ k = k' := fun hh => h hh.symm
    simp [alookup, ainsert, hne]
  | cons p rest ih =>
    obtain ⟨k0, w⟩ := p
    by_cases h0 : k0 = k
    · subst h0
      have hne : ¬ k0 = k' := fun hh => h hh.symm
      simp [alookup, ainsert, hne]
    · simp [alookup, ainsert, h0, ih]

/-! ## Configuration store (`configstore/configstore.go`) -/

/-- ModelPluginType (configstore.go:18-28): the closed enumeration of the
parts of a transaction a model plugin can handle. -/
inductive ModelPluginType where
  | requestHeaders
  | requestBody
  | allRequest
  | responseHeaders
  | responseBody
  | allResponse
  | everything
  deriving DecidableEq, Repr, Fintype

/-- String (configstore.go:31-48): the textual name of a plugin type. The Go
method's `default` branch returns "Everything"; over the closed enumeration
that branch is exactly the `everything` case. -/
def ModelPluginType.string : ModelPluginType → String
  | .requestHeaders => "RequestHeaders"
  | .requestBody => "RequestBody"
  | .allRequest => "AllRequest"
  | .responseHeaders => "ResponseHeaders"
  | .responseBody => "ResponseBody"
  | .allResponse => "AllResponse"
  | .everything => "Everything"

/-- StringToPluginType (configstore.go:51-69): parses a plugin-type name. The
Go function returns `(-1, error)` on failure; the embedding carries only the
error message. -/
def stringToPluginType : String → Except String ModelPluginType
  | "RequestHeaders" => .ok .requestHeaders
  | "RequestBody" => .ok .requestBody
  | "AllRequest" => .ok .allRequest
  | "ResponseHeaders" => .ok .responseHeaders
  | "ResponseBody" => .ok .responseBody
  | "AllResponse" => .ok .allResponse
  | "Everything" => .ok .everything
  | textType => .error ("invalid plugin type " ++ textType)

/-- The seven segment-type names, in declaration order. -/
def segmentNames : List String :=
  ["RequestHeaders", "RequestBody", "AllRequest", "ResponseHeaders",
   "ResponseBody", "AllResponse", "Everything"]

/-- LogLevel of the external logging dependency. Modelled from the spec:
the configuration schema admits the four levels ERROR, WARN, INFO, DEBUG. -/
inductive LogLevel where
  | error
  | warn
  | info
  | debug
  deriving DecidableEq, Repr

/-- StringToLogLevel of the external logging dependency. Modelled from the
spec: recognizes exactly ERROR, WARN, INFO and DEBUG; like the Go original it
returns a value alongside the error (the enum's zero value on failure). -/
def stringToLogLevel : String → LogLevel × Option String
  | "ERROR" => (.error, none)
  | "WARN" => (.warn, none)
  | "INFO" => (.info, none)
  | "DEBUG" => (.debug, none)
  | s => (.error, some ("invalid log level " ++ s))

/-- modelPluginConfig (configstore.go:72-81). -/
structure ModelPluginConfig where
  id : String
  path : String
  weight : Rat
  threshold : Rat
  params : List (String × String)
  pluginType : ModelPluginType
  mode : String
  remote : Bool
  deriving DecidableEq, Repr

/-- decisionPluginConfig (configstore.go:84-90). -/
structure DecisionPluginConfig where
  id : String
  path : String
  wafweight : Rat
  decisionBalance : Rat
  params : List (String × String)
  deriving DecidableEq, Repr

/-- ConfigStore (configstore.go:93-100). -/
structure ConfigStore where
  modelPlugins : List (String × ModelPluginConfig)
  decisionPlugins : List (String × DecisionPluginConfig)
  logPath : String
  logLevel : LogLevel
  natsURL : String
  applicationId : String
  deriving DecidableEq, Repr

/-- configFileModelPlugin (configstore.go:112-121). -/
structure ConfigFileModelPlugin where
  id : String
  path : String
  weight : Rat
  threshold : Rat
  params : List (String × String)
  pluginType : String
  mode : String
  remote : Bool
  deriving DecidableEq, Repr

/-- configFileDecisionPlugin (configstore.go:123-129). -/
structure ConfigFileDecisionPlugin where
  id : String
  path : String
  wafweight : Rat
  decisionBalance : Rat
  params : List (String × String)
  deriving DecidableEq, Repr

/-- ConfigFileData (configstore.go:131-137). -/
structure ConfigFileData where
  logpath : String
  loglevel : String
  modelplugins : List ConfigFileModelPlugin
  decisionplugins : List ConfigFileDecisionPlugin
  natsURL : String
  deriving DecidableEq, Repr

/-- The filesystem the validation code consults, abstracted to the two
queries the code makes: `statOk p` is whether `os.Stat(p)` succeeds and
`writeOk p` whether creating and removing a dummy file at `p` succeeds. -/
structure FS where
  statOk : String → Bool
  writeOk : String → Bool

/-- IsAsync (configstore.go:140-142); a missing id reads Go's zero value,
whose Mode is the empty string. -/
def ConfigStore.isAsync (c : ConfigStore) (modelID : String) : Bool :=
  (match alookup c.modelPlugins modelID with
   | some mc => mc.mode
   | none => "") == "async"

/-- checkLogging (configstore.go:145-160): the log path is valid when
non-empty and either already present or creatable-and-removable. The
embedding returns the error message, `none` on success. -/
def checkLogging (fs : FS) (inConf : ConfigFileData) : Option String :=
  if inConf.logpath = "" then some "log path empty"
  else if fs.statOk inConf.logpath then none
  else if fs.writeOk inConf.logpath then none
  else some "cannot create log file"

/-- The model-plugin half of checkConfig (configstore.go:171-184): first
failure wins; a plugin needs a non-empty path that stats and a non-empty
plugin-type name (validity of the name is not checked here). -/
def checkModelPluginsConf (fs : FS) : List ConfigFileModelPlugin → Option String
  | [] => none
  | p :: rest =>
    if p.path = "" then some (p.id ++ " plugin path is empty, please provide a valid path")
    else if ¬ fs.statOk p.path then some (p.id ++ " plugin path " ++ p.path ++ ": stat error")
    else if p.pluginType = "" then
      some (p.id ++ " plugin type cannot be empty, please provide a valid type")
    else checkModelPluginsConf fs rest

/-- The decision-plugin half of checkConfig (configstore.go:186-195). -/
def checkDecisionPluginsConf (fs : FS) : List ConfigFileDecisionPlugin → Option String
  | [] => none
  | p :: rest =>
    if p.path = "" then some (p.id ++ " plugin path is empty, please provide a valid path")
    else if ¬ fs.statOk p.path then
      some (p.id ++ " plugin path " ++ p.path ++ " cannot be opened: stat error")
    else checkDecisionPluginsConf fs rest

/-- checkConfig (configstore.go:164-198). -/
def checkConfig (fs : FS) (inConf : ConfigFileData) : Option String :=
  match checkLogging fs inConf with
  | some e => some ("invalid log path " ++ inConf.logpath ++ ": " ++ e)
  | none =>
    match checkModelPluginsConf fs inConf.modelplugins with
    | some e => some e
    | none => checkDecisionPluginsConf fs inConf.decisionplugins

/-- The model-plugin loading loop of SetConfig (configstore.go:213-228):
converts each entry in order, inserting into the store's fresh map; an
unrecognized plugin-type name aborts with the entries so far kept. -/
def loadModelPluginsConf :
    List ConfigFileModelPlugin → List (String × ModelPluginConfig) →
    List (String × ModelPluginConfig) × Option String
  | [], acc => (acc, none)
  | p :: rest, acc =>
    match stringToPluginType p.pluginType with
    | .error e => (acc, some e)
    | .ok tp =>
      loadModelPluginsConf rest
        (ainsert acc p.id ⟨p.id, p.path, p.weight, p.threshold, p.params, tp, p.mode, p.remote⟩)

/-- The decision-plugin loading loop of SetConfig (configstore.go:230-239);
it cannot fail. -/
def loadDecisionPluginsConf :
    List ConfigFileDecisionPlugin → List (String × DecisionPluginConfig) →
    List (String × DecisionPluginConfig)
  | [], acc => acc
  | p :: rest, acc =>
    loadDecisionPluginsConf rest
      (ainsert acc p.id ⟨p.id, p.path, p.wafweight, p.decisionBalance, p.params⟩)

/-- SetConfig (configstore.go:201-248). The Go method mutates the receiver in
place and returns an error; the embedding returns the receiver's final value
together with the error, which exposes the fields already assigned when a
validation step after checkConfig fails. -/
def setConfig (fs : FS) (cs : ConfigStore) (inConf : ConfigFileData) :
    ConfigStore × Option String :=
  match checkConfig fs inConf with
  | some e => (cs, some e)
  | none =>
    let cs1 := { cs with logPath := inConf.logpath }
    let lvl := stringToLogLevel inConf.loglevel
    let cs2 := { cs1 with logLevel := lvl.1 }
    match lvl.2 with
    | some e => (cs2, some e)
    | none =>
      let mp := loadModelPluginsConf inConf.modelplugins []
      let cs3 := { cs2 with modelPlugins := mp.1 }
      match mp.2 with
      | some e => (cs3, some e)
      | none =>
        let cs4 := { cs3 with
          decisionPlugins := loadDecisionPluginsConf inConf.decisionplugins [] }
        ({ cs4 with
            natsURL := if inConf.natsURL ≠ "" then inConf.natsURL else "localhost:4222" },
         none)

/-! ## Plugin manager (`pluginmanager`, src/unnamed/part_000) -/

/-- ModelResults (part_000:21-24): probability-of-attack plus an opaque
auxiliary mapping (`map[string]interface{}`, values modelled as strings). -/
structure ModelResults where
  probAttack : Rat
  data : List (String × String)
  deriving DecidableEq, Repr

/-- ModelInput (part_000:27-30). -/
structure ModelInput where
  transactionId : String
  payload : String
  deriving DecidableEq, Repr

/-- DecisionInput (part_000:33-38). -/
structure DecisionInput where
  transactionId : String
  results : List (String × ModelResults)
  modelWeight : List (String × Rat)
  wafData : List (String × String)
  deriving DecidableEq, Repr

/-- ModelTransmitionResults (part_000:41-45): what the worker loop publishes
on the results subject. -/
structure ModelTransmitionResults where
  transactionId : String
  results : ModelResults
  error : Option String
  deriving DecidableEq, Repr

/-- ModelStatus (part_000:60-64). A status built without a probability
carries Go's zero value 0. -/
structure ModelStatus where
  modelID : String
  probAttack : Rat
  err : Option String
  deriving DecidableEq, Repr

/-- The mutable state of PluginManager (part_000:68-78). Plugin handles are
opaque, so a loaded model plugin is represented by its accepted segment type
(part_000:48-51); the process/check function registries are passed as
parameters where used, since they are fixed at construction. Channels are
identified by numeric tokens; the statuses a call sends are returned by the
call itself. -/
structure PMState where
  modelPlugins : List (String × ModelPluginType)
  results : List (String × List (String × ModelResults))
  syncChans : List (String × List (String × Nat))
  asyncChans : List (String × List (String × Nat))
  deriving DecidableEq, Repr

/-- PluginManager.InitTransaction (part_000:194-196): stores a fresh empty
result map for the transaction, replacing any existing one. -/
def pmInitTransaction (pm : PMState) (transactionId : String) : PMState :=
  { pm with results := ainsert pm.results transactionId [] }

/-- AddModelChannel (part_000:228-237): installs the channel under
(tid, t.String()) in the sync or async registry, creating the outer entry
when absent. -/
def addModelChannel (pm : PMState) (transactionId : String) (t : ModelPluginType)
    (modelPlugStatus : Nat) (modelType : String) : PMState :=
  if modelType = "sync" then
    let inner := (alookup pm.syncChans transactionId).getD []
    { pm with syncChans :=
        ainsert pm.syncChans transactionId (ainsert inner t.string modelPlugStatus) }
  else
    let inner := (alookup pm.asyncChans transactionId).getD []
    { pm with asyncChans :=
        ainsert pm.asyncChans transactionId (ainsert inner t.string modelPlugStatus) }

/-- RemoveAsyncModelChannel (part_000:240-264): closes and removes the async
channel at (tid, t.String()); when no async channel for tid remains, erases
the transaction's async entry entirely. -/
def removeAsyncModelChannel (pm : PMState) (transactionId : String)
    (t : ModelPluginType) : PMState :=
  match alookup pm.asyncChans transactionId with
  | none => pm
  | some channelMap =>
    let channelMap' := aerase channelMap t.string
    if channelMap'.length = 0 then
      { pm with asyncChans := aerase pm.asyncChans transactionId }
    else
      { pm with asyncChans := ainsert pm.asyncChans transactionId channelMap' }

/-- PluginManager.CloseTransaction (part_000:200-225): everything after the
sync-channel lookup — including the deletion of the transaction's result
store — happens only in the branch where a sync-channel entry for tid
exists; otherwise the function only logs. The async-channel registry is
never touched. Closing and draining the channels themselves is not
observable at this abstraction. -/
def pmCloseTransaction (pm : PMState) (transactionId : String) : PMState :=
  match alookup pm.syncChans transactionId with
  | none => pm
  | some _ =>
    { pm with
        syncChans := aerase pm.syncChans transactionId,
        results := aerase pm.results transactionId }

/-- The Mode the config store holds for a model id (`conf.ModelPlugins[id].Mode`);
Go's zero-value read yields the empty string for an unknown id. -/
def confModelMode (conf : ConfigStore) (modelID : String) : String :=
  match alookup conf.modelPlugins modelID with
  | some mc => mc.mode
  | none => ""

/-- The PluginType the config store holds for a model id
(`conf.ModelPlugins[id].PluginType`); Go's zero-value read yields value 0,
which is RequestHeaders. -/
def confModelType (conf : ConfigStore) (modelID : String) : ModelPluginType :=
  match alookup conf.modelPlugins modelID with
  | some mc => mc.pluginType
  | none => .requestHeaders

/-- The Weight the config store holds for a model id; 0 for an unknown id. -/
def confModelWeight (conf : ConfigStore) (modelID : String) : Rat :=
  match alookup conf.modelPlugins modelID with
  | some mc => mc.weight
  | none => 0

/-- Process (part_000:283-321). `procs` is the modelProcessFunc registry
(populated at construction for sync local plugins); each registered function
returns a result together with an optional error, as in Go. The result is
the updated state and the statuses sent on the given channel, or `none` for
the run-time fault of calling an unregistered (nil) process function, which
is only reachable when Process is misrouted. -/
def pmProcess (conf : ConfigStore)
    (procs : String → Option (ModelInput → ModelResults × Option String))
    (pm : PMState) (modelID transactionId payload : String) (t : ModelPluginType) :
    Option (PMState × List ModelStatus) :=
  match alookup pm.modelPlugins modelID with
  | none => some (pm, [⟨modelID, 0, some "model plugin not found"⟩])
  | some pluginType =>
    if pluginType ≠ t then
      some (pm, [⟨modelID, 0,
        some ("plugin type " ++ pluginType.string ++
          " cannot process a request with incompatible type " ++ t.string)⟩])
    else if confModelMode conf modelID = "async" then
      some (pm, [⟨modelID, 0, some "model plugin is async"⟩])
    else
      match procs modelID with
      | none => none
      | some process =>
        match process ⟨transactionId, payload⟩ with
        | (_, some e) => some (pm, [⟨modelID, 0, some e⟩])
        | (res, none) =>
          match alookup pm.results transactionId with
          | none => some (pm, [⟨modelID, 0, some "transaction results not found"⟩])
          | some resultMap =>
            some ({ pm with results :=
                      ainsert pm.results transactionId (ainsert resultMap modelID res) },
                  [⟨modelID, res.probAttack, none⟩])

/-- CheckResult (part_000:325-352). `checks` is the decisionCheckFunc
registry. Returns (block, error, number of decision-plugin invocations). -/
def pmCheckResult (conf : ConfigStore)
    (checks : String → Option (DecisionInput → Bool × Option String))
    (pm : PMState) (transactionId decisionId : String)
    (wafParams : List (String × String)) : Bool × Option String × Nat :=
  match checks decisionId with
  | none => (false, some "decision plugin not found", 0)
  | some checkResults =>
    match alookup pm.results transactionId with
    | none => (false, some "transaction results not found", 0)
    | some transactionResults =>
      let modelWeightMap := transactionResults.map (fun kv => (kv.1, confModelWeight conf kv.1))
      let r := checkResults ⟨transactionId, transactionResults, modelWeightMap, wafParams⟩
      (r.1, r.2, 1)

/-- The state-changing part of the result listener (ModelResultsHandler,
part_000:359-398) for one inbound message: route by the model's configured
mode to the async or sync channel registry, then by its configured accepted
segment; for a non-async model without a transported error, store the
ModelResults before the status is sent. Sends themselves and dropped
messages are not observable at this abstraction. -/
def resultListenerDeliver (conf : ConfigStore) (pm : PMState) (modelId : String)
    (data : ModelTransmitionResults) : PMState :=
  let mode := confModelMode conf modelId
  let registry := if mode = "async" then pm.asyncChans else pm.syncChans
  match alookup registry data.transactionId with
  | none => pm
  | some channelMap =>
    match alookup channelMap (confModelType conf modelId).string with
    | none => pm
    | some _ =>
      match data.error with
      | some _ => pm
      | none =>
        if mode ≠ "async" then
          match alookup pm.results data.transactionId with
          | none => pm
          | some resultMap =>
            let stored : ModelResults := ⟨data.results.probAttack, data.results.data⟩
            { pm with results :=
                ainsert pm.results data.transactionId (ainsert resultMap modelId stored) }
        else pm

/-- The message the worker loop (ModelProcessHandler, part_000:427-451)
publishes on the results subject for one inbound input: the plugin's local
process function is run and its result and error are transported. -/
def workerOutput (rbeh : String → ModelInput → ModelResults × Option String)
    (modelId transactionId payload : String) : ModelTransmitionResults :=
  let r := rbeh modelId ⟨transactionId, payload⟩
  ⟨transactionId, ⟨r.1.probAttack, r.1.data⟩, r.2⟩

/-! ## Core coordinator (`wacecore.go`) -/

/-- transactionSync (wacecore.go:37-40). The unbuffered signal channel is
modelled by the number of "done" messages emitted for it and not yet
consumed; a fresh channel has none pending. -/
structure TransactionSyncSt where
  counter : Nat
  pendingDones : Nat
  deriving DecidableEq, Repr

/-- The coordinator's state: the analysisMap (wacecore.go:42-46), the plugin
manager state, and a supply of fresh channel tokens. -/
structure CoreState where
  analysisMap : List (String × TransactionSyncSt)
  pm : PMState
  nextChan : Nat
  deriving DecidableEq, Repr

/-- addTransactionAnalysis (wacecore.go:51-60): LoadOrStore of a fresh record
with counter 1; when the transaction is already present, its counter is
incremented instead. -/
def addTransactionAnalysis (m : List (String × TransactionSyncSt)) (transactionID : String) :
    List (String × TransactionSyncSt) :=
  match alookup m transactionID with
  | some tSync => ainsert m transactionID ⟨tSync.counter + 1, tSync.pendingDones⟩
  | none => ainsert m transactionID ⟨1, 0⟩

/-- How one model id fares in the dispatch loop of callPlugins
(wacecore.go:83-104): unknown id, wrong segment, published as async,
published as sync-remote, or processed locally. -/
inductive DispatchKind where
  | notFound
  | wrongSegment
  | asyncQueued
  | syncRemoteQueued
  | syncLocal
  deriving DecidableEq, Repr

/-- The branch of the dispatch loop (wacecore.go:85-101) a model id takes for
requested segment `t`. -/
def classifyModel (conf : ConfigStore) (t : ModelPluginType) (id : String) : DispatchKind :=
  match alookup conf.modelPlugins id with
  | none => .notFound
  | some mc =>
    if mc.pluginType ≠ t then .wrongSegment
    else if conf.isAsync id then .asyncQueued
    else if mc.remote then .syncRemoteQueued
    else .syncLocal

/-- What one dispatch round sends where (wacecore.go:78-104): the ids
published via AddToQueue, the ids started via Process, and the two counters
the loop accumulates. -/
structure RoundDispatch where
  queued : List String
  processed : List String
  syncCounter : Nat
  asyncCounter : Nat
  deriving DecidableEq, Repr

/-- The dispatch loop of callPlugins (wacecore.go:83-104) over a model list:
async models are queued and counted async; sync-remote models are queued but
counted sync; sync-local models are processed and counted sync; unknown and
wrong-segment models are skipped with a log. -/
def roundDispatch (conf : ConfigStore) (t : ModelPluginType) : List String → RoundDispatch
  | [] => ⟨[], [], 0, 0⟩
  | id :: rest =>
    let r := roundDispatch conf t rest
    match classifyModel conf t id with
    | .asyncQueued => ⟨id :: r.queued, r.processed, r.syncCounter, r.asyncCounter + 1⟩
    | .syncRemoteQueued => ⟨id :: r.queued, r.processed, r.syncCounter + 1, r.asyncCounter⟩
    | .syncLocal => ⟨r.queued, id :: r.processed, r.syncCounter + 1, r.asyncCounter⟩
    | _ => r

/-- The plugin-manager effects of one completed dispatch round, model by
model: a sync-local model runs Process (`none` when that call would fault on
a nil process function); a sync-remote model is published, processed by the
worker loop and its reply delivered by the result listener; an async model's
reply reaches only its async channel and stores nothing, and skipped models
have no effect. -/
def roundEffects (conf : ConfigStore)
    (procs : String → Option (ModelInput → ModelResults × Option String))
    (rbeh : String → ModelInput → ModelResults × Option String)
    (transactionId input : String) (t : ModelPluginType) :
    List String → PMState → Option PMState
  | [], pm => some pm
  | id :: rest, pm =>
    match classifyModel conf t id with
    | .syncLocal =>
      match pmProcess conf procs pm id transactionId input t with
      | none => none
      | some pr => roundEffects conf procs rbeh transactionId input t rest pr.1
    | .syncRemoteQueued =>
      roundEffects conf procs rbeh transactionId input t rest
        (resultListenerDeliver conf pm id (workerOutput rbeh id transactionId input))
    | _ => roundEffects conf procs rbeh transactionId input t rest pm

/-- callPlugins (wacecore.go:65-161) as one completed round: register the
async and sync channels (lines 70-74), dispatch every model and absorb the
completed sync work (lines 83-152), let the detached async waiter remove the
async channel (lines 106-131), and finally send one "done" on the
transaction's signal channel — only if the transaction is still in the
analysisMap (lines 154-160). -/
def callPluginsCompleted (conf : ConfigStore)
    (procs : String → Option (ModelInput → ModelResults × Option String))
    (rbeh : String → ModelInput → ModelResults × Option String)
    (s : CoreState) (input : String) (models : List String) (t : ModelPluginType)
    (transactionId : String) : Option CoreState :=
  let pm1 := addModelChannel s.pm transactionId t s.nextChan "async"
  let pm2 := addModelChannel pm1 transactionId t (s.nextChan + 1) "sync"
  match roundEffects conf procs rbeh transactionId input t models pm2 with
  | none => none
  | some pm3 =>
    let pm4 := removeAsyncModelChannel pm3 transactionId t
    match alookup s.analysisMap transactionId with
    | none => some { s with pm := pm4, nextChan := s.nextChan + 2 }
    | some tSync =>
      some { s with
        pm := pm4,
        nextChan := s.nextChan + 2,
        analysisMap :=
          ainsert s.analysisMap transactionId ⟨tSync.counter, tSync.pendingDones + 1⟩ }

/-- InitTransaction (wacecore.go:164-174): store a fresh transactionSync with
counter 0 and a new signal channel, and delegate to the plugin manager's
InitTransaction, which installs a fresh empty result map. -/
def initTransaction (s : CoreState) (transactionId : String) : CoreState :=
  { s with
      analysisMap := ainsert s.analysisMap transactionId ⟨0, 0⟩,
      pm := pmInitTransaction s.pm transactionId }

/-- Analyze (wacecore.go:177-190) with its launched round run to completion:
an empty model list returns nil with no effect at all; an unrecognized
segment name returns the parse error; otherwise the counter is bumped and
the round executed. `none` stands for a faulted round. -/
def analyze (conf : ConfigStore)
    (procs : String → Option (ModelInput → ModelResults × Option String))
    (rbeh : String → ModelInput → ModelResults × Option String)
    (s : CoreState) (modelsTypeAsString transactionId payload : String)
    (models : List String) : Option (CoreState × Option String) :=
  if models.length > 0 then
    match stringToPluginType modelsTypeAsString with
    | .error e => some (s, some e)
    | .ok modelsType =>
      let s1 := { s with analysisMap := addTransactionAnalysis s.analysisMap transactionId }
      match callPluginsCompleted conf procs rbeh s1 payload models modelsType transactionId with
      | none => none
      | some s2 => some (s2, none)
  else some (s, none)

/-- What CheckTransaction (wacecore.go:194-230) yields besides the final
state: the decision plugin's verdict and error, how many "done" signals were
received from the signal channel, and how many times the decision plugin was
invoked. -/
structure CheckOutcome where
  block : Bool
  err : Option String
  consumed : Nat
  decisionCalls : Nat
  deriving DecidableEq, Repr

/-- CheckTransaction (wacecore.go:194-230): an unknown transaction returns
the does-not-exist error untouched; otherwise the gate receives exactly
`counter` signals, resets the counter to 0 and invokes CheckResult. -/
def checkTransaction (conf : ConfigStore)
    (checks : String → Option (DecisionInput → Bool × Option String))
    (s : CoreState) (transactionID decisionPlugin : String)
    (wafParams : List (String × String)) : CoreState × CheckOutcome :=
  match alookup s.analysisMap transactionID with
  | none =>
    (s, ⟨false, some ("transaction with id " ++ transactionID ++ " does not exist"), 0, 0⟩)
  | some tSync =>
    let s1 := { s with
      analysisMap :=
        ainsert s.analysisMap transactionID ⟨0, tSync.pendingDones - tSync.counter⟩ }
    let r := pmCheckResult conf checks s1.pm transactionID decisionPlugin wafParams
    (s1, ⟨r.1, r.2.1, tSync.counter, r.2.2⟩)

/-- CloseTransaction (wacecore.go:234-237): delegate to the plugin manager's
CloseTransaction, then delete the analysisMap entry. -/
def closeTransaction (s : CoreState) (transactionID : String) : CoreState :=
  { s with
      pm := pmCloseTransaction s.pm transactionID,
      analysisMap := aerase s.analysisMap transactionID }

/-- One Analyze call of a transaction's history: segment name, payload and
model list. -/
structure RoundCall where
  seg : String
  payload : String
  models : List String
  deriving DecidableEq, Repr

/-- A sequence of completed Analyze calls on one transaction. -/
def runRounds (conf : ConfigStore)
    (procs : String → Option (ModelInput → ModelResults × Option String))
    (rbeh : String → ModelInput → ModelResults × Option String)
    (transactionId : String) : List RoundCall → CoreState → Option CoreState
  | [], s => some s
  | r :: rest, s =>
    match analyze conf procs rbeh s r.seg transactionId r.payload r.models with
    | none => none
    | some p => runRounds conf procs rbeh transactionId rest p.1

/-! ## Concrete instances used by witnesses and counterexamples -/

/-- An empty coordinator state: no transactions, no plugins loaded, no
channels. -/
def coreEmpty : CoreState := ⟨[], ⟨[], [], [], []⟩, 0⟩

/-- A config store with no plugins. -/
def confEmpty : ConfigStore := ⟨[], [], "/dev/null", .error, "localhost:4222", ""⟩

/-- An empty process-function registry. -/
def procsNone : String → Option (ModelInput → ModelResults × Option String) :=
  fun _ => none

/-- An empty decision-check registry. -/
def checksNone : String → Option (DecisionInput → Bool × Option String) :=
  fun _ => none

/-- A remote behaviour that always reports probability 0. -/
def rbehZero : String → ModelInput → ModelResults × Option String :=
  fun _ _ => (⟨0, []⟩, none)

/-- A config store holding one sync local model plugin `wild` whose accepted
segment is Everything. -/
def confEverything : ConfigStore :=
  ⟨[("wild", ⟨"wild", "/plugins/wild.so", 1, 1, [], .everything, "sync", false⟩)],
   [], "/dev/null", .warn, "localhost:4222", ""⟩

/-- A plugin-manager state where `wild` is loaded with accepted segment
Everything and transaction `t1` has an (empty) result store. -/
def pmEverything : PMState := ⟨[("wild", .everything)], [("t1", [])], [], []⟩

/-- A process registry where `wild` returns probability 1. -/
def procsEverything : String → Option (ModelInput → ModelResults × Option String) :=
  fun id => if id = "wild" then some (fun _ => (⟨1, []⟩, none)) else none

/-! ## Claims -/

/-- C9: SegmentType ↔ name is a bijection over the seven named values: every
value round-trips through `stringToPluginType` after `ModelPluginType.string`,
the names are pairwise distinct, and each of the seven name strings parses
back to a value whose name is that string. -/
theorem c9_segment_name_bijection :
    (∀ t : ModelPluginType, stringToPluginType t.string = Except.ok t) ∧
    (∀ t1 t2 : ModelPluginType, t1.string = t2.string → t1 = t2) ∧
    segmentNames.Nodup ∧
    (∀ s ∈ segmentNames, ∃ t : ModelPluginType,
      stringToPluginType s = Except.ok t ∧ t.string = s) := by
  decide

/-- C10: InitTransaction on any state — in particular on a transaction id
that is already live — unconditionally replaces the transactionSync record
with a fresh one (counter 0, new signal channel with no pending "done"
signals) and replaces the per-transaction result store with an empty map. -/
theorem c10_initTransaction_replaces_state (s : CoreState) (tid : String) :
    alookup (initTransaction s tid).analysisMap tid = some ⟨0, 0⟩ ∧
    alookup (initTransaction s tid).pm.results tid = some [] := by
  refine ⟨?_, ?_⟩
  · simp [initTransaction, alookup_ainsert_self]
  · simp [initTransaction, pmInitTransaction, alookup_ainsert_self]

/-- C8: Analyze with an empty model list returns success for every segment
name (recognized or not) and every state, with no side effect whatsoever:
the state is returned unchanged, so no counter is bumped, no transactionSync
entry is created and no channel is registered. -/
theorem c8_analyze_empty_models_no_effect (conf : ConfigStore)
    (procs : String → Option (ModelInput → ModelResults × Option String))
    (rbeh : String → ModelInput → ModelResults × Option String)
    (s : CoreState) (seg transactionId payload : String) :
    analyze conf procs rbeh s seg transactionId payload [] = some (s, none) := rfl

/-- C7: CheckTransaction on a transaction id absent from the lifecycle map
returns (false, UnknownTransactionError) with the state unchanged, zero
signals consumed and the decision plugin not invoked. -/
theorem c7_checkTransaction_unknown_tid (conf : ConfigStore)
    (checks : String → Option (DecisionInput → Bool × Option String))
    (s : CoreState) (transactionID decisionPlugin : String)
    (wafParams : List (String × String))
    (h : alookup s.analysisMap transactionID = none) :
    checkTransaction conf checks s transactionID decisionPlugin wafParams =
      (s, ⟨false, some ("transaction with id " ++ transactionID ++ " does not exist"),
           0, 0⟩) := by
  unfold checkTransaction
  rw [h]

/-- Witness for C7 at the spec's own scenario S2: tid "never" was never
initialized. -/
theorem c7_checkTransaction_unknown_tid_witness :
    checkTransaction confEmpty checksNone coreEmpty "never" "simple" [] =
      (coreEmpty, ⟨false, some "transaction with id never does not exist", 0, 0⟩) :=
  c7_checkTransaction_unknown_tid confEmpty checksNone coreEmpty "never" "simple" [] rfl

/-- C2 (code bug): the type gate has no Everything wildcard. A sync local
model whose accepted segment is Everything, asked for segment
RequestHeaders, is skipped by the dispatch loop (zero queued, zero
processed, both counters 0) and rejected by Process with the
incompatible-type error instead of being dispatched. -/
theorem c2_everything_model_not_dispatched :
    roundDispatch confEverything .requestHeaders ["wild"] = ⟨[], [], 0, 0⟩ ∧
    pmProcess confEverything procsEverything pmEverything "wild" "t1" "payload"
        .requestHeaders =
      some (pmEverything, [⟨"wild", 0, some ("plugin type Everything cannot process " ++
        "a request with incompatible type RequestHeaders")⟩]) := by
  refine ⟨by decide, by decide⟩

/-- C3 (code bug): after InitTransaction("t1") with zero Analyze calls,
CloseTransaction("t1") deletes the analysisMap entry but leaves the plugin
manager's result store keyed by "t1" in place, because the deletion of the
result store only happens in the branch where a sync-channel entry for the
transaction exists. -/
theorem c3_close_without_analyze_leaves_results :
    alookup (closeTransaction (initTransaction coreEmpty "t1") "t1").pm.results "t1" =
      some [] ∧
    alookup (closeTransaction (initTransaction coreEmpty "t1") "t1").analysisMap "t1" =
      none := by
  refine ⟨by decide, by decide⟩

/-- A filesystem on which exactly "/dev/null" stats successfully. -/
def fsDevNull : FS := ⟨fun p => p == "/dev/null", fun _ => false⟩

/-- A previously loaded store whose fields differ from any input below. -/
def csOld : ConfigStore := ⟨[], [], "/old/path.log", .info, "nats.old:4222", ""⟩

/-- A config input that passes checkConfig but has an unrecognized log
level. -/
def confBadLevel : ConfigFileData := ⟨"/dev/null", "BOGUS", [], [], ""⟩

/-- A config input whose log path is empty, so checkConfig rejects it. -/
def confEmptyPath : ConfigFileData := ⟨"", "ERROR", [], [], ""⟩

/-- C4 counterexample: SetConfig with a valid log path but an unrecognized
log level returns an error, yet LogPath has already been overwritten — the
store is not unchanged, refuting atomicity as claimed. -/
theorem c4_counterexample_partial_load :
    (setConfig fsDevNull csOld confBadLevel).2 = some "invalid log level BOGUS" ∧
    (setConfig fsDevNull csOld confBadLevel).1.logPath = "/dev/null" ∧
    csOld.logPath = "/old/path.log" := by
  refine ⟨by decide, by decide, by decide⟩

/-- C4 (amended): SetConfig is atomic only with respect to checkConfig
failures — then the store is returned unchanged with the error. When
checkConfig passes and the log level is unrecognized, the error is returned
with LogPath (and the level value the logging library returned) already
assigned; when additionally the log level parses but a model plugin's
segment-type name is unrecognized, LogPath, LogLevel and the already
converted model plugins are assigned before the error is returned. -/
theorem c4_setConfig_atomic_only_for_checkConfig (fs : FS) (cs : ConfigStore)
    (inConf : ConfigFileData) :
    (∀ e, checkConfig fs inConf = some e → setConfig fs cs inConf = (cs, some e)) ∧
    (∀ e, checkConfig fs inConf = none →
      (stringToLogLevel inConf.loglevel).2 = some e →
      setConfig fs cs inConf =
        ({ cs with logPath := inConf.logpath,
                   logLevel := (stringToLogLevel inConf.loglevel).1 }, some e)) ∧
    (∀ e, checkConfig fs inConf = none →
      (stringToLogLevel inConf.loglevel).2 = none →
      (loadModelPluginsConf inConf.modelplugins []).2 = some e →
      setConfig fs cs inConf =
        ({ cs with logPath := inConf.logpath,
                   logLevel := (stringToLogLevel inConf.loglevel).1,
                   modelPlugins := (loadModelPluginsConf inConf.modelplugins []).1 },
         some e)) := by
  refine ⟨?_, ?_, ?_⟩
  · intro e h
    simp [setConfig, h]
  · intro e h1 h2
    simp [setConfig, h1, h2]
  · intro e h1 h2 h3
    simp [setConfig, h1, h2, h3]

/-- Witness for C4's amended theorem: a rejected empty log path leaves the
store untouched. -/
theorem c4_setConfig_atomic_witness :
    setConfig fsDevNull csOld confEmptyPath =
      (csOld, some "invalid log path : log path empty") :=
  (c4_setConfig_atomic_only_for_checkConfig fsDevNull csOld confEmptyPath).1
    "invalid log path : log path empty" (by decide)

/-- A config store holding one sync remote model plugin `rmod` accepting
RequestHeaders. -/
def confRemote : ConfigStore :=
  ⟨[("rmod", ⟨"rmod", "/plugins/rmod.so", 1, 1, [], .requestHeaders, "sync", true⟩)],
   [], "/dev/null", .warn, "localhost:4222", ""⟩

/-- C5 counterexample: an eligible sync-remote model is published (queued)
but increments the round's sync counter, not the async counter — its result
does gate the round, refuting the claim's counter assignment. -/
theorem c5_counterexample_sync_remote_gates :
    classifyModel confRemote .requestHeaders "rmod" = .syncRemoteQueued ∧
    roundDispatch confRemote .requestHeaders ["rmod"] = ⟨["rmod"], [], 1, 0⟩ := by
  refine ⟨by decide, by decide⟩

/-- Whether the dispatch loop publishes this model via AddToQueue: async
models and sync-remote models. -/
def queuesModel (conf : ConfigStore) (t : ModelPluginType) (id : String) : Bool :=
  match classifyModel conf t id with
  | .asyncQueued => true
  | .syncRemoteQueued => true
  | _ => false

/-- Whether the dispatch loop starts this model via Process: sync local
models. -/
def processesModel (conf : ConfigStore) (t : ModelPluginType) (id : String) : Bool :=
  match classifyModel conf t id with
  | .syncLocal => true
  | _ => false

/-- Whether the dispatch loop counts this model in the round's sync counter:
sync local and sync remote models. -/
def countsSyncModel (conf : ConfigStore) (t : ModelPluginType) (id : String) : Bool :=
  match classifyModel conf t id with
  | .syncLocal => true
  | .syncRemoteQueued => true
  | _ => false

/-- Whether the dispatch loop counts this model in the round's async
counter: async models only. -/
def countsAsyncModel (conf : ConfigStore) (t : ModelPluginType) (id : String) : Bool :=
  match classifyModel conf t id with
  | .asyncQueued => true
  | _ => false

/-- C5 (amended): within one dispatch round, every eligible async model is
published via AddToQueue and counted in the async counter; every eligible
sync model with the remote flag is also published via AddToQueue but counted
in the sync counter (gating the round); every eligible sync local model is
started via Process and counted in the sync counter. -/
theorem c5_dispatch_classification (conf : ConfigStore) (t : ModelPluginType)
    (models : List String) :
    (roundDispatch conf t models).queued = models.filter (queuesModel conf t) ∧
    (roundDispatch conf t models).processed = models.filter (processesModel conf t) ∧
    (roundDispatch conf t models).syncCounter =
      (models.filter (countsSyncModel conf t)).length ∧
    (roundDispatch conf t models).asyncCounter =
      (models.filter (countsAsyncModel conf t)).length := by
  induction models with
  | nil => simp [roundDispatch]
  | cons id rest ih =>
    obtain ⟨h1, h2, h3, h4⟩ := ih
    cases hc : classifyModel conf t id <;>
      simp [roundDispatch, hc, h1, h2, h3, h4, queuesModel, processesModel,
        countsSyncModel, countsAsyncModel, List.filter_cons]

/-- A config store holding one sync local model plugin `m` accepting
RequestHeaders. -/
def confSyncM : ConfigStore :=
  ⟨[("m", ⟨"m", "/plugins/m.so", 1, 1, [], .requestHeaders, "sync", false⟩)],
   [], "/dev/null", .warn, "localhost:4222", ""⟩

/-- A plugin-manager state where `m` is loaded but no transaction has a
result store. -/
def pmNoTid : PMState := ⟨[("m", .requestHeaders)], [], [], []⟩

/-- A plugin-manager state where `m` is loaded and transaction `t1` has an
empty result store. -/
def pmWithTid : PMState := ⟨[("m", .requestHeaders)], [("t1", [])], [], []⟩

/-- A process registry where `m` always returns probability 1 without
error. -/
def procsM : String → Option (ModelInput → ModelResults × Option String) :=
  fun id => if id = "m" then some (fun _ => (⟨1, []⟩, none)) else none

/-- C6 counterexample: the loaded sync model's process function returns
(res, nil), yet — because the transaction "t9" has no result store entry —
Process emits a ModelStatus carrying an error and stores nothing, refuting
the claim's success clause as universally stated. -/
theorem c6_counterexample_no_result_store :
    (procsM "m").getD (fun _ => (⟨0, []⟩, some "absent")) ⟨"t9", "x"⟩ =
      (⟨1, []⟩, none) ∧
    pmProcess confSyncM procsM pmNoTid "m" "t9" "x" .requestHeaders =
      some (pmNoTid, [⟨"m", 0, some "transaction results not found"⟩]) ∧
    alookup pmNoTid.results "t9" = none := by
  refine ⟨by decide, by decide, by decide⟩

/-- C6 (amended): Process of an unknown model id sends exactly one
"model plugin not found" status and leaves the state unchanged; for a loaded
model whose accepted segment matches, whose configured mode is not async and
whose process function succeeds, the result is stored verbatim under
(tid, modelId) and one ok status with its probability is sent — provided the
transaction's result store entry exists (InitTransaction was called and not
closed); when the process function returns an error, one status carrying
that error is sent and nothing is stored. -/
theorem c6_process_behavior (conf : ConfigStore)
    (procs : String → Option (ModelInput → ModelResults × Option String))
    (pm : PMState) (modelID transactionId payload : String) (t : ModelPluginType) :
    (alookup pm.modelPlugins modelID = none →
      pmProcess conf procs pm modelID transactionId payload t =
        some (pm, [⟨modelID, 0, some "model plugin not found"⟩])) ∧
    (∀ process res resultMap,
      alookup pm.modelPlugins modelID = some t →
      confModelMode conf modelID ≠ "async" →
      procs modelID = some process →
      process ⟨transactionId, payload⟩ = (res, none) →
      alookup pm.results transactionId = some resultMap →
      pmProcess conf procs pm modelID transactionId payload t =
        some ({ pm with results :=
                  ainsert pm.results transactionId (ainsert resultMap modelID res) },
              [⟨modelID, res.probAttack, none⟩])) ∧
    (∀ process res e,
      alookup pm.modelPlugins modelID = some t →
      confModelMode conf modelID ≠ "async" →
      procs modelID = some process →
      process ⟨transactionId, payload⟩ = (res, some e) →
      pmProcess conf procs pm modelID transactionId payload t =
        some (pm, [⟨modelID, 0, some e⟩])) := by
  refine ⟨?_, ?_, ?_⟩
  · intro h
    simp [pmProcess, h]
  · intro process res resultMap h1 h2 h3 h4 h5
    simp [pmProcess, h1, h2, h3, h4, h5]
  · intro process res e h1 h2 h3 h4
    simp [pmProcess, h1, h2, h3, h4]

/-- Witness for C6's amended theorem: the happy path at a concrete loaded
model, matching segment and initialized transaction. -/
theorem c6_process_behavior_witness :
    pmProcess confSyncM procsM pmWithTid "m" "t1" "x" .requestHeaders =
      some (⟨[("m", .requestHeaders)], [("t1", [("m", ⟨1, []⟩)])], [], []⟩,
            [⟨"m", 1, none⟩]) := by
  have h := (c6_process_behavior confSyncM procsM pmWithTid "m" "t1" "x"
      .requestHeaders).2.1 (fun _ => (⟨1, []⟩, none)) ⟨1, []⟩ []
    (by decide) (by decide) rfl rfl (by decide)
  exact h.trans (by decide)

/-- One completed round sends exactly one "done" on the transaction's signal
channel (wacecore.go:154-160), whatever the round dispatched: the pending
count rises by one and the counter is untouched. -/
theorem callPluginsCompleted_emits_one_done (conf : ConfigStore)
    (procs : String → Option (ModelInput → ModelResults × Option String))
    (rbeh : String → ModelInput → ModelResults × Option String)
    (s : CoreState) (input : String) (models : List String) (t : ModelPluginType)
    (tid : String) (c d : Nat) (s' : CoreState)
    (hl : alookup s.analysisMap tid = some ⟨c, d⟩)
    (h : callPluginsCompleted conf procs rbeh s input models t tid = some s') :
    alookup s'.analysisMap tid = some ⟨c, d + 1⟩ := by
  simp only [callPluginsCompleted] at h
  split at h
  · exact absurd h (by simp)
  · rw [hl] at h
    simp only [Option.some.injEq] at h
    subst h
    simpa using alookup_ainsert_self s.analysisMap tid ⟨c, d + 1⟩

/-- One Analyze call with a non-empty model list and a valid segment name,
run to completion, increments the transaction's counter by one and emits one
"done" signal. -/
theorem analyze_counter_step (conf : ConfigStore)
    (procs : String → Option (ModelInput → ModelResults × Option String))
    (rbeh : String → ModelInput → ModelResults × Option String)
    (s : CoreState) (seg tid payload : String) (models : List String)
    (c d : Nat) (s' : CoreState) (e? : Option String)
    (hm : models ≠ [])
    (hseg : ∃ t, stringToPluginType seg = .ok t)
    (hl : alookup s.analysisMap tid = some ⟨c, d⟩)
    (h : analyze conf procs rbeh s seg tid payload models = some (s', e?)) :
    alookup s'.analysisMap tid = some ⟨c + 1, d + 1⟩ := by
  obtain ⟨t, ht⟩ := hseg
  have hlen : models.length > 0 := List.length_pos.mpr hm
  simp only [analyze, hlen, if_true, ht] at h
  have hl1 : alookup (addTransactionAnalysis s.analysisMap tid) tid = some ⟨c + 1, d⟩ := by
    simp [addTransactionAnalysis, hl, alookup_ainsert_self]
  rcases hcall : callPluginsCompleted conf procs rbeh
      { s with analysisMap := addTransactionAnalysis s.analysisMap tid }
      payload models t tid with _ | s2
  · rw [hcall] at h
    exact absurd h (by simp)
  · rw [hcall] at h
    simp only [Option.some.injEq, Prod.mk.injEq] at h
    obtain ⟨hs2, _⟩ := h
    subst hs2
    exact callPluginsCompleted_emits_one_done conf procs rbeh _ payload models t tid
      (c + 1) d _ hl1 hcall

/-- Over a history of completed rounds, the transaction's counter and its
pending "done" signals both grow by exactly the number of rounds. -/
theorem runRounds_counter (conf : ConfigStore)
    (procs : String → Option (ModelInput → ModelResults × Option String))
    (rbeh : String → ModelInput → ModelResults × Option String) (tid : String) :
    ∀ (rounds : List RoundCall) (s : CoreState) (c d : Nat) (s' : CoreState),
    (∀ r ∈ rounds, r.models ≠ []) →
    (∀ r ∈ rounds, ∃ t, stringToPluginType r.seg = .ok t) →
    alookup s.analysisMap tid = some ⟨c, d⟩ →
    runRounds conf procs rbeh tid rounds s = some s' →
    alookup s'.analysisMap tid = some ⟨c + rounds.length, d + rounds.length⟩
  | [], s, c, d, s', _, _, hl, h => by
    simp only [runRounds, Option.some.injEq] at h
    subst h
    simpa using hl
  | r :: rest, s, c, d, s', hm, hseg, hl, h => by
    simp only [runRounds] at h
    rcases ha : analyze conf procs rbeh s r.seg tid r.payload r.models with _ | p
    · rw [ha] at h
      exact absurd h (by simp)
    · rw [ha] at h
      have step := analyze_counter_step conf procs rbeh s r.seg tid r.payload r.models
        c d p.1 p.2 (hm r (List.mem_cons_self r rest)) (hseg r (List.mem_cons_self r rest))
        hl (by rw [ha])
      have rec := runRounds_counter conf procs rbeh tid rest p.1 (c + 1) (d + 1) s'
        (fun x hx => hm x (List.mem_cons_of_mem r hx))
        (fun x hx => hseg x (List.mem_cons_of_mem r hx)) step h
      have e1 : c + 1 + rest.length = c + (rest.length + 1) := by omega
      have e2 : d + 1 + rest.length = d + (rest.length + 1) := by omega
      rw [e1, e2] at rec
      simpa [List.length_cons] using rec

/-- C1: for a transaction initialized by InitTransaction, after k completed
Analyze rounds (each with a non-empty model list and a valid segment name)
the transaction holds k pending "done" signals and counter k — one signal
per round, even for a round that dispatched no eligible model — and one
CheckTransaction then consumes exactly k signals and leaves the counter at 0
with no signal pending. -/
theorem c1_done_signal_balance (conf : ConfigStore)
    (procs : String → Option (ModelInput → ModelResults × Option String))
    (rbeh : String → ModelInput → ModelResults × Option String)
    (checks : String → Option (DecisionInput → Bool × Option String))
    (tid decisionId : String) (wafParams : List (String × String))
    (s0 sK : CoreState) (rounds : List RoundCall)
    (h1 : ∀ r ∈ rounds, r.models ≠ [])
    (h2 : ∀ r ∈ rounds, ∃ t, stringToPluginType r.seg = .ok t)
    (hrun : runRounds conf procs rbeh tid rounds (initTransaction s0 tid) = some sK) :
    alookup sK.analysisMap tid = some ⟨rounds.length, rounds.length⟩ ∧
    (checkTransaction conf checks sK tid decisionId wafParams).2.consumed =
      rounds.length ∧
    alookup (checkTransaction conf checks sK tid decisionId wafParams).1.analysisMap
      tid = some ⟨0, 0⟩ := by
  have hinit : alookup (initTransaction s0 tid).analysisMap tid = some ⟨0, 0⟩ := by
    simp [initTransaction, alookup_ainsert_self]
  have hK := runRounds_counter conf procs rbeh tid rounds _ 0 0 sK h1 h2 hinit hrun
  simp only [Nat.zero_add] at hK
  refine ⟨hK, ?_, ?_⟩
  · unfold checkTransaction
    rw [hK]
  · unfold checkTransaction
    rw [hK]
    simpa using alookup_ainsert_self sK.analysisMap tid ⟨0, 0⟩

/-- A round whose only model id is unknown: nothing is eligible, yet the
round still emits its one "done". -/
def c1Round : RoundCall := ⟨"RequestHeaders", "payload", ["nosuch"]⟩

/-- The state after InitTransaction("t1") and that one completed round. -/
def c1Final : CoreState :=
  ⟨[("t1", ⟨1, 1⟩)], ⟨[], [("t1", [])], [("t1", [("RequestHeaders", 1)])], []⟩, 2⟩

/-- Witness for C1 at one concrete round — a round in which no model was
eligible — followed by one CheckTransaction. -/
theorem c1_done_signal_balance_witness :
    alookup c1Final.analysisMap "t1" = some ⟨1, 1⟩ ∧
    (checkTransaction confEmpty checksNone c1Final "t1" "simple" []).2.consumed = 1 ∧
    alookup (checkTransaction confEmpty checksNone c1Final "t1" "simple" []).1.analysisMap
      "t1" = some ⟨0, 0⟩ :=
  c1_done_signal_balance confEmpty procsNone rbehZero checksNone "t1" "simple" []
    coreEmpty c1Final [c1Round] (by decide) (by decide) (by decide)
